import Mathlib

/-!
# Verification of the csp-billing-adapter billing state machine

A shallow embedding of the csp-billing-adapter core: the metering pipeline
(`process_metering`), the billable-usage calculator (`get_billable_usage`,
`get_average_usage`, `get_max_usage`), the dimension mapper
(`get_volume_dimensions`, `get_billing_dimensions`), the cache and CSP-config
documents, and the per-tick event loop (`event_loop_handler`, `main`).

Timestamps are modelled as integers (seconds); the ISO-8601 string round-trip
(`date_to_string` / `string_to_date`) is the identity under this abstraction.
Metric quantities are natural numbers (the data model declares them integers
and the calculator's output non-negative integers).

Source files present in the repository: `csp_billing_adapter/adapter.py` and
the unit tests `tests/unit/test_bill_utils.py`, `tests/unit/test_csp_config.py`.
The modules `bill_utils.py`, `csp_config.py`, `csp_cache.py` and `utils.py`
are not present; their operations are modelled from the specification (and,
where the unit tests pin behaviour the specification text contradicts, from
the tests, which are repository code). Each such definition says so in its
doc comment.
-/

namespace CspBillingAdapter

/-- A pricing tier of one metric: `{dimension, minimum, maximum}`; an absent
`maximum` means unbounded above (spec §3). -/
structure Tier where
  dimension : String
  minimum : Nat
  mx : Option Nat
  deriving Repr, DecidableEq

/-- The per-metric aggregate selector: `usage_aggregate` is `"average"` or
`"maximum"` (spec §3). -/
inductive Aggregate where
  | average : Aggregate
  | maximumAgg : Aggregate
  deriving Repr, DecidableEq

/-- Per-metric configuration: `{usage_aggregate, consumption_reporting:
"volume", dimensions}` (spec §3); `consumption_reporting` is always
`"volume"` and is omitted. -/
structure MetricConfig where
  usage_aggregate : Aggregate
  dimensions : List Tier
  deriving Repr, DecidableEq

/-- The run configuration (spec §3): intervals in seconds plus the ordered
metric map `usage_metrics`. -/
structure Config where
  query_interval : Int
  reporting_interval : Int
  billing_interval : Int
  usage_metrics : List (String × MetricConfig)
  deriving Repr, DecidableEq

/-- A usage record `{reporting_time, <metric>: integer, …}` (spec §3): a
sample timestamp plus the sampled value of each metric it carries. -/
structure UsageRecord where
  reporting_time : Int
  usage : List (String × Nat)
  deriving Repr, DecidableEq

/-- `record.get(metric)`: the value a record carries for a metric, if any. -/
def UsageRecord.getMetric (r : UsageRecord) (metric : String) : Option Nat :=
  r.usage.lookup metric

/-- `last_bill` summary `{dimensions, metering_time, record_id}` (spec §3). -/
structure LastBill where
  dimensions : List (String × Nat)
  metering_time : Int
  record_id : Nat
  deriving Repr, DecidableEq

/-- The persisted cache document (spec §3). `last_bill = none` models the
initial empty mapping `{}`. -/
structure Cache where
  adapter_start_time : Int
  next_bill_time : Int
  next_reporting_time : Int
  usage_records : List UsageRecord
  last_bill : Option LastBill
  deriving Repr, DecidableEq

/-- The persisted CSP config document (spec §3). `usage`/`last_billed` are
absent until the first real bill. -/
structure CspConfig where
  billing_api_access_ok : Bool
  timestamp : Int
  expire : Int
  errors : List String
  usage : Option (List (String × Nat))
  last_billed : Option Int
  deriving Repr, DecidableEq

/-- Modelled from the spec: `utils.get_next_bill_time` (§4.1),
`next_bill_time(t, billing_interval) = t + billing_interval`; `utils.py` is
not in the source tree. -/
def get_next_bill_time (t : Int) (billing_interval : Int) : Int :=
  t + billing_interval

/-- Modelled from the spec: `utils.get_prev_bill_time` (§4.1),
`prev_bill_time(t, billing_interval) = t - billing_interval`; `utils.py` is
not in the source tree. -/
def get_prev_bill_time (t : Int) (billing_interval : Int) : Int :=
  t - billing_interval

/-- Modelled from the spec: `utils.get_date_delta` (§4.1), shifting a
timestamp by a signed number of seconds; `utils.py` is not in the source
tree. -/
def get_date_delta (t : Int) (delta : Int) : Int :=
  t + delta

/-- The values a metric takes across a record sequence: the metric's values
"from all records that contain it" (spec §4.5); records that omit the metric
are skipped. -/
def metric_values (metric : String) (usage_records : List UsageRecord) : List Nat :=
  usage_records.filterMap (fun r => r.getMetric metric)

/-- Modelled from the spec: `bill_utils.get_average_usage` (§4.5); the
`average` aggregate is the integer mean of the metric's values, truncating
toward zero (over naturals, truncated division), and 0 for an empty record
sequence (pinned by `test_get_average_usage`); `bill_utils.py` is not in the
source tree. -/
def get_average_usage (metric : String) (usage_records : List UsageRecord) : Nat :=
  if usage_records.isEmpty then 0
  else (metric_values metric usage_records).sum / (metric_values metric usage_records).length

/-- Modelled from the spec: `bill_utils.get_max_usage` (§4.5); the `maximum`
aggregate is the greatest of the metric's values, and 0 for an empty record
sequence (pinned by `test_get_max_usage`); `bill_utils.py` is not in the
source tree. -/
def get_max_usage (metric : String) (usage_records : List UsageRecord) : Nat :=
  if usage_records.isEmpty then 0
  else (metric_values metric usage_records).foldl Nat.max 0

/-- Modelled from the spec: `bill_utils.get_billable_usage` (§4.5): if
`empty_usage` is true or the input sequence is empty, every declared metric
maps to 0; otherwise each metric is aggregated independently with its
configured aggregate; `bill_utils.py` is not in the source tree. -/
def get_billable_usage (usage_records : List UsageRecord) (config : Config)
    (empty_usage : Bool) : List (String × Nat) :=
  if empty_usage || usage_records.isEmpty then
    config.usage_metrics.map (fun p => (p.1, 0))
  else
    config.usage_metrics.map (fun p =>
      match p.2.usage_aggregate with
      | Aggregate.average => (p.1, get_average_usage p.1 usage_records)
      | Aggregate.maximumAgg => (p.1, get_max_usage p.1 usage_records))

/-- The `NoMatchingVolumeDimensionError` payload: the metric name and the
billable value that matched no tier (spec §4.6; `exceptions.py` declares the
error, `test_get_volume_dimensions_invalid` pins `e.metric` and `e.value`). -/
structure NoMatchingVolumeDimensionError where
  metric : String
  value : Nat
  deriving Repr, DecidableEq

/-- Whether a tier's inclusive `[minimum, maximum]` range contains a
quantity; an absent maximum is unbounded above (spec §4.6). -/
def tier_matches (usage : Nat) (t : Tier) : Bool :=
  decide (t.minimum ≤ usage) &&
    (match t.mx with
     | none => true
     | some m => decide (usage ≤ m))

/-- Modelled from the spec: `bill_utils.get_volume_dimensions` (§4.6): scan
the metric's declared tiers in declared order, emit `{tier.dimension:
quantity}` for the first tier whose range contains the quantity, and fail
with `NoMatchingVolumeDimensionError(metric, value)` when no tier matches;
`bill_utils.py` is not in the source tree. -/
def get_volume_dimensions (usage_metric : String) (usage : Nat) :
    List Tier → Except NoMatchingVolumeDimensionError (String × Nat)
  | [] => Except.error ⟨usage_metric, usage⟩
  | t :: rest =>
    if tier_matches usage t then Except.ok (t.dimension, usage)
    else get_volume_dimensions usage_metric usage rest

/-- The declared tiers of a metric: `config.usage_metrics[metric].dimensions`
(spec §3); a metric absent from the configuration has no tiers. -/
def metric_tiers (config : Config) (metric : String) : List Tier :=
  match config.usage_metrics.lookup metric with
  | some mc => mc.dimensions
  | none => []

/-- Modelled from the spec: `bill_utils.get_billing_dimensions` (§4.6): map
each metric's billable quantity through its declared tiers; the whole mapping
fails atomically on any metric's failure (no partial dimensions are
emitted); `bill_utils.py` is not in the source tree. -/
def get_billing_dimensions (config : Config) :
    List (String × Nat) → Except NoMatchingVolumeDimensionError (List (String × Nat))
  | [] => Except.ok []
  | (metric, usage) :: rest =>
    match get_volume_dimensions metric usage (metric_tiers config metric) with
    | Except.error e => Except.error e
    | Except.ok dim =>
      match get_billing_dimensions config rest with
      | Except.error e => Except.error e
      | Except.ok dims => Except.ok (dim :: dims)

/-- Modelled from the spec: `csp_cache.create_cache` (§4.3): on first run set
`adapter_start_time = now`, `next_bill_time = now + billing_interval`,
`next_reporting_time = now + reporting_interval`, empty records, empty
last_bill; `csp_cache.py` is not in the source tree (behaviour also pinned by
`test_process_metering`). -/
def create_cache (now : Int) (config : Config) : Cache :=
  { adapter_start_time := now
    next_bill_time := now + config.billing_interval
    next_reporting_time := now + config.reporting_interval
    usage_records := []
    last_bill := none }

/-- Modelled from the spec: `csp_cache.add_usage_record` (§4.3): append the
record to `usage_records`, preserving insertion order; `csp_cache.py` is not
in the source tree. -/
def add_usage_record (cache : Cache) (record : UsageRecord) : Cache :=
  { cache with usage_records := cache.usage_records ++ [record] }

/-- Modelled from the spec: `csp_config.create_csp_config` (§4.4): the
initial document has `billing_api_access_ok = true`, `timestamp = now`,
`expire = now + reporting_interval` and empty errors; `csp_config.py` is not
in the source tree (behaviour also pinned by `test_create_csp_config`). -/
def create_csp_config (now : Int) (config : Config) : CspConfig :=
  { billing_api_access_ok := true
    timestamp := now
    expire := now + config.reporting_interval
    errors := []
    usage := none
    last_billed := none }

/-- Modelled from the spec: the success branch of `csp_config.update_csp_config`
(§4.4): set the flag true, `timestamp = now`, `expire = now +
reporting_interval`, clear errors, and set `usage`/`last_billed` when
supplied; `csp_config.py` is not in the source tree. -/
def update_csp_config_success (now : Int) (config : Config) (c : CspConfig)
    (usage : Option (List (String × Nat))) (last_billed : Option Int) : CspConfig :=
  { billing_api_access_ok := true
    timestamp := now
    expire := now + config.reporting_interval
    errors := []
    usage := usage.orElse (fun _ => c.usage)
    last_billed := last_billed.orElse (fun _ => c.last_billed) }

/-- Modelled from the spec: the failure branch of `csp_config.update_csp_config`
(§4.4): set the flag false, append the error string, and do not advance
`timestamp`/`expire`; `csp_config.py` is not in the source tree. -/
def update_csp_config_failure (c : CspConfig) (msg : String) : CspConfig :=
  { c with
    billing_api_access_ok := false
    errors := c.errors ++ [msg] }

/-- The pair of persisted documents the pipeline mutates (spec §3,
"Ownership": both documents are exclusively owned by the adapter). -/
structure AdapterState where
  cache : Cache
  csp_config : CspConfig
  deriving Repr, DecidableEq

/-- Modelled from the spec: the real-bill advance of `next_bill_time`
(§4.7): add one `billing_interval`, and while `now` is still ≥ the new value
keep adding, until strictly greater (handles downtime spanning several
periods). -/
def advance_next_bill_time (billing_interval now : Int) (t : Int) : Int :=
  if _h : 0 < billing_interval ∧ t + billing_interval ≤ now then
    advance_next_bill_time billing_interval now (t + billing_interval)
  else
    t + billing_interval
termination_by (now - t).toNat
decreasing_by
  omega

/-- The error string carried into the CSP config document when dimension
mapping fails (spec §7 kind 6: surfaced as a submission failure without
contacting the backend). -/
def volume_dimension_error_message (e : NoMatchingVolumeDimensionError) : String :=
  "No matching volume dimension for metric " ++ e.metric ++
    " with value " ++ toString e.value

/-- Whether a record's `reporting_time` falls in the closing billing period
`[next_bill_time - billing_interval, next_bill_time)` (spec glossary "Bill
period"; scoping pinned by `test_process_metering`). -/
def pm_in_period (config : Config) (cache : Cache) (r : UsageRecord) : Bool :=
  decide (get_prev_bill_time cache.next_bill_time config.billing_interval ≤
      r.reporting_time) &&
    decide (r.reporting_time < cache.next_bill_time)

/-- The records `process_metering` aggregates: for a real bill, the cached
records of the closing billing period; for a heartbeat the record set is
irrelevant (every metric is zero). -/
def pm_billable_records (config : Config) (cache : Cache) (empty_metering : Bool) :
    List UsageRecord :=
  if empty_metering then cache.usage_records
  else cache.usage_records.filter (pm_in_period config cache)

/-- The billable usage `process_metering` submits (spec §4.7: `calc(S_in,
empty_metering)`). -/
def pm_billable_usage (config : Config) (cache : Cache) (empty_metering : Bool) :
    List (String × Nat) :=
  get_billable_usage (pm_billable_records config cache empty_metering) config empty_metering

/-- Modelled from the spec: `bill_utils.process_metering` (§4.7);
`bill_utils.py` is not in the source tree. The ambient clock (`now`) and the
metering backend's outcome (`meter_result`: a record id on success, an error
string on failure) are parameters, as they come from outside the core.
Record scoping for a real bill follows `test_process_metering`, which pins
that exactly the records of the closing billing period
`[next_bill_time - billing_interval, next_bill_time)` are billed and
discarded, while records on either side of that period survive (the spec's
§4.7 `S_in`/`S_out` wording would also discard records before the period
start). Outcomes: dimension-mapping failure and submission failure update
only the CSP config document (failure branch); heartbeat success advances
only `next_reporting_time`; real-bill success replaces `usage_records` with
the out-of-period records, sets `last_bill`, advances `next_bill_time` past
`now` and sets `next_reporting_time = now + reporting_interval`. The
function is total: no outcome raises out of the pipeline. -/
def process_metering (config : Config) (now : Int) (st : AdapterState)
    (meter_result : Except String Nat) (empty_metering : Bool) : AdapterState :=
  let bill_time := st.cache.next_bill_time
  let billable_usage := pm_billable_usage config st.cache empty_metering
  match get_billing_dimensions config billable_usage with
  | Except.error e =>
    { st with
      csp_config :=
        update_csp_config_failure st.csp_config (volume_dimension_error_message e) }
  | Except.ok billed_dimensions =>
    match meter_result with
    | Except.error msg =>
      { st with csp_config := update_csp_config_failure st.csp_config msg }
    | Except.ok record_id =>
      if empty_metering then
        { cache := { st.cache with next_reporting_time := now + config.reporting_interval }
          csp_config := update_csp_config_success now config st.csp_config none none }
      else
        { cache := { st.cache with
            usage_records :=
              st.cache.usage_records.filter (fun r => !(pm_in_period config st.cache r))
            last_bill := some ⟨billed_dimensions, now, record_id⟩
            next_bill_time := advance_next_bill_time config.billing_interval now bill_time
            next_reporting_time := now + config.reporting_interval }
          csp_config := update_csp_config_success now config st.csp_config
            (some billable_usage) (some now) }

/-- The exceptions `main` distinguishes (adapter.py lines 142-160):
`CSPBillingAdapterException` exits with code 2, any other exception with
code 1 (`KeyboardInterrupt`/`SystemExit`, which cannot arise from the
modelled calls, are omitted). -/
inductive AdapterException where
  | adapter (msg : String) : AdapterException
  | unexpected (msg : String) : AdapterException
  deriving Repr, DecidableEq

/-- The exit code `main`'s handlers assign to an exception escaping the
event loop (adapter.py lines 151-160). -/
def exception_exit_code : AdapterException → Nat
  | AdapterException.adapter _ => 2
  | AdapterException.unexpected _ => 1

/-- One tick's external inputs: the clock reading, the sampling backend's
outcome (`hook.get_usage_data`, which may raise), and the metering
backend's outcome. -/
structure TickInput where
  now : Int
  usage_result : Except AdapterException UsageRecord
  meter_result : Except String Nat

/-- What one successful tick produced: the updated documents, the returned
timestamp, and the `empty_metering` flag of each `process_metering` call
made, in call order. -/
structure TickResult where
  state : AdapterState
  result_now : Int
  metering_calls : List Bool
  deriving Repr, DecidableEq

/-- `event_loop_handler` (adapter.py lines 105-121): request a sample
(errors propagate), append it to the cache, read the cache and the clock
once, then either real-bill (`now ≥ next_bill_time`), heartbeat
(`now ≥ next_reporting_time`), or do nothing; return `now`. Storage is
modelled as in-memory state (the storage backend's durable put/get, spec
§3 "Ownership"). -/
def event_loop_handler (config : Config) (input : TickInput) (st : AdapterState) :
    Except AdapterException TickResult :=
  match input.usage_result with
  | Except.error e => Except.error e
  | Except.ok usage =>
    let st1 : AdapterState := { st with cache := add_usage_record st.cache usage }
    let now := input.now
    if now ≥ st1.cache.next_bill_time then
      Except.ok { state := process_metering config now st1 input.meter_result false
                  result_now := now
                  metering_calls := [false] }
    else if now ≥ st1.cache.next_reporting_time then
      Except.ok { state := process_metering config now st1 input.meter_result true
                  result_now := now
                  metering_calls := [true] }
    else
      Except.ok { state := st1
                  result_now := now
                  metering_calls := [] }

/-- How a modelled run of `main`'s event loop ends: either every supplied
tick was processed and the loop is still running, or an exception escaped
`event_loop_handler` and the process exited with the code `main`'s handlers
assign, leaving the documents as they were when the failing tick started. -/
inductive RunOutcome where
  | running (st : AdapterState) : RunOutcome
  | exited (code : Nat) (st : AdapterState) : RunOutcome
  deriving Repr, DecidableEq

/-- `main`'s event loop (adapter.py lines 138-160): run `event_loop_handler`
tick after tick inside one try/except; the first exception that escapes a
tick terminates the whole process (no later tick runs). -/
def run_event_loop (config : Config) (st : AdapterState) :
    List TickInput → RunOutcome
  | [] => RunOutcome.running st
  | input :: rest =>
    match event_loop_handler config input st with
    | Except.error e => RunOutcome.exited (exception_exit_code e) st
    | Except.ok tr => run_event_loop config tr.state rest

/-! ## Helper lemmas -/

/-- Looking a key up in the zeroed metric map yields 0 whenever the key is
declared. -/
lemma lookup_map_fst_zero {β : Type} (l : List (String × β)) (m : String) (mc : β)
    (hm : (m, mc) ∈ l) :
    (l.map (fun p => (p.1, (0 : Nat)))).lookup m = some 0 := by
  induction l with
  | nil => simp at hm
  | cons a t ih =>
    obtain ⟨a1, a2⟩ := a
    rcases List.mem_cons.mp hm with h | h
    · cases h
      simp [List.lookup]
    · simp only [List.map_cons, List.lookup]
      cases hma : m == a1 with
      | true => rfl
      | false => exact ih h

/-- The seed is a lower bound of a `foldl Nat.max`. -/
lemma foldl_max_init_le (l : List Nat) (a : Nat) : a ≤ l.foldl Nat.max a := by
  induction l generalizing a with
  | nil => exact Nat.le_refl a
  | cons b t ih =>
    simp only [List.foldl_cons]
    exact Nat.le_trans (Nat.le_max_left a b) (ih (Nat.max a b))

/-- Every element of the list is bounded by its `foldl Nat.max`. -/
lemma foldl_max_le_of_mem {x : Nat} (l : List Nat) (a : Nat) (hx : x ∈ l) :
    x ≤ l.foldl Nat.max a := by
  induction l generalizing a with
  | nil => simp at hx
  | cons b t ih =>
    simp only [List.foldl_cons]
    rcases List.mem_cons.mp hx with h | h
    · subst h
      exact Nat.le_trans (Nat.le_max_right a x) (foldl_max_init_le t (Nat.max a x))
    · exact ih (Nat.max a b) h

/-- A `foldl Nat.max` is the seed or one of the list's elements. -/
lemma foldl_max_eq_or_mem (l : List Nat) (a : Nat) :
    l.foldl Nat.max a = a ∨ l.foldl Nat.max a ∈ l := by
  induction l generalizing a with
  | nil => exact Or.inl rfl
  | cons b t ih =>
    simp only [List.foldl_cons]
    rcases ih (Nat.max a b) with h | h
    · rcases Nat.le_total a b with hab | hab
      · right
        have hb : Nat.max a b = b := Nat.max_eq_right hab
        rw [h, hb]
        exact List.mem_cons_self b t
      · left
        have ha : Nat.max a b = a := Nat.max_eq_left hab
        rw [h, ha]
    · exact Or.inr (List.mem_cons_of_mem b h)

/-- A metric constant across all records yields a constant value list. -/
lemma metric_values_const (metric : String) (c : Nat) (records : List UsageRecord)
    (h : ∀ r ∈ records, r.getMetric metric = some c) :
    metric_values metric records = List.replicate records.length c := by
  induction records with
  | nil => rfl
  | cons r t ih =>
    simp only [metric_values, List.filterMap_cons] at ih ⊢
    rw [h r (List.mem_cons_self r t)]
    rw [ih (fun x hx => h x (List.mem_cons_of_mem r hx))]
    simp [List.replicate_succ]

/-! ## The claims -/

/-- C10: the per-metric aggregation helpers `get_average_usage` and
`get_max_usage` applied to an empty record list return 0 rather than failing
(the empty-list guard fires before any division or maximum is taken). -/
theorem c10_empty_aggregates_zero (metric : String) :
    get_average_usage metric [] = 0 ∧ get_max_usage metric [] = 0 :=
  ⟨rfl, rfl⟩

/-- C8: `get_billable_usage` with `empty_usage = true`, or with an empty
input record sequence, returns a mapping in which every declared metric is
present and maps to 0. -/
theorem c8_empty_usage_all_zero (config : Config) (records : List UsageRecord)
    (empty_usage : Bool) (m : String) (mc : MetricConfig)
    (hm : (m, mc) ∈ config.usage_metrics) :
    (get_billable_usage records config true).lookup m = some 0 ∧
    (get_billable_usage [] config empty_usage).lookup m = some 0 := by
  constructor
  · simp only [get_billable_usage, Bool.true_or, if_pos]
    exact lookup_map_fst_zero config.usage_metrics m mc hm
  · simp only [get_billable_usage, List.isEmpty_nil, Bool.or_true, if_pos]
    exact lookup_map_fst_zero config.usage_metrics m mc hm

/-- Witness for C8 at a concrete configuration. -/
theorem c8_empty_usage_all_zero_witness :
    (get_billable_usage []
      { query_interval := 60
        reporting_interval := 300
        billing_interval := 3600
        usage_metrics :=
          [("managed_node_count",
            { usage_aggregate := Aggregate.average
              dimensions := [{ dimension := "base", minimum := 0, mx := some 10 }] })] }
      true).lookup "managed_node_count" = some 0 :=
  (c8_empty_usage_all_zero
    { query_interval := 60
      reporting_interval := 300
      billing_interval := 3600
      usage_metrics :=
        [("managed_node_count",
          { usage_aggregate := Aggregate.average
            dimensions := [{ dimension := "base", minimum := 0, mx := some 10 }] })] }
    [] true "managed_node_count"
    { usage_aggregate := Aggregate.average
      dimensions := [{ dimension := "base", minimum := 0, mx := some 10 }] }
    (by simp)).1

/-- C7: over a non-empty record sequence, the `average` aggregate of a
metric constant across all records returns that constant; the `average` is
the truncated integer mean of the metric's values (characterised by
`avg * n ≤ sum < (avg + 1) * n`; over the non-negative quantities of the
data model, truncation toward zero is truncated division); and the `maximum`
aggregate returns the numeric maximum of the metric's values (it is one of
the values and bounds them all). -/
theorem c7_aggregate_laws (metric : String) (records : List UsageRecord) (c : Nat) :
    (records ≠ [] → (∀ r ∈ records, r.getMetric metric = some c) →
      get_average_usage metric records = c) ∧
    (records ≠ [] → 0 < (metric_values metric records).length →
      get_average_usage metric records * (metric_values metric records).length ≤
          (metric_values metric records).sum ∧
        (metric_values metric records).sum <
          (get_average_usage metric records + 1) * (metric_values metric records).length) ∧
    (metric_values metric records ≠ [] →
      get_max_usage metric records ∈ metric_values metric records ∧
        ∀ v ∈ metric_values metric records, v ≤ get_max_usage metric records) := by
  have hni : records ≠ [] → records.isEmpty = false := by
    intro hne
    cases records with
    | nil => exact absurd rfl hne
    | cons a t => rfl
  refine ⟨?_, ?_, ?_⟩
  · intro hne hc
    have hv := metric_values_const metric c records hc
    simp only [get_average_usage, hni hne, Bool.false_eq_true, if_false, hv,
      List.sum_replicate, List.length_replicate, smul_eq_mul]
    exact Nat.mul_div_cancel_left c (List.length_pos.mpr hne)
  · intro hne hlen
    simp only [get_average_usage, hni hne, Bool.false_eq_true, if_false]
    constructor
    · exact Nat.div_mul_le_self _ _
    · calc (metric_values metric records).sum
          = (metric_values metric records).length *
              ((metric_values metric records).sum / (metric_values metric records).length) +
              (metric_values metric records).sum % (metric_values metric records).length :=
            (Nat.div_add_mod _ _).symm
        _ < (metric_values metric records).length *
              ((metric_values metric records).sum / (metric_values metric records).length) +
              (metric_values metric records).length :=
            Nat.add_lt_add_left (Nat.mod_lt _ hlen) _
        _ = ((metric_values metric records).sum / (metric_values metric records).length + 1) *
              (metric_values metric records).length := by ring
  · intro hvne
    have hrne : records ≠ [] := by
      intro h
      rw [h] at hvne
      exact hvne rfl
    simp only [get_max_usage, hni hrne, Bool.false_eq_true, if_false]
    constructor
    · rcases foldl_max_eq_or_mem (metric_values metric records) 0 with h | h
      · rw [h]
        cases hv : metric_values metric records with
        | nil => exact absurd hv hvne
        | cons v t =>
          have hvle : v ≤ 0 := by
            have hm := foldl_max_le_of_mem (metric_values metric records) 0
              (hv ▸ List.mem_cons_self v t)
            rw [h] at hm
            exact hm
          have hv0 : (0 : Nat) = v := (Nat.le_zero.mp hvle).symm
          rw [hv0]
          exact List.mem_cons_self v t
      · exact h
    · intro v hv
      exact foldl_max_le_of_mem _ 0 hv

/-- Witness for C7: constant average, the truncation bounds, and the maximum
over a concrete record sequence. -/
theorem c7_aggregate_laws_witness :
    get_average_usage "d" [⟨0, [("d", 2)]⟩, ⟨60, [("d", 2)]⟩] = 2 ∧
    get_max_usage "m" [⟨0, [("m", 1)]⟩, ⟨60, [("m", 3)]⟩] ∈
      metric_values "m" [⟨0, [("m", 1)]⟩, ⟨60, [("m", 3)]⟩] ∧
    get_average_usage "m" [⟨0, [("m", 1)]⟩, ⟨60, [("m", 3)]⟩] *
        (metric_values "m" [⟨0, [("m", 1)]⟩, ⟨60, [("m", 3)]⟩]).length ≤
      (metric_values "m" [⟨0, [("m", 1)]⟩, ⟨60, [("m", 3)]⟩]).sum := by
  refine ⟨(c7_aggregate_laws "d" [⟨0, [("d", 2)]⟩, ⟨60, [("d", 2)]⟩] 2).1
      (by decide) (by decide),
    ((c7_aggregate_laws "m" [⟨0, [("m", 1)]⟩, ⟨60, [("m", 3)]⟩] 0).2.2 (by decide)).1,
    ((c7_aggregate_laws "m" [⟨0, [("m", 1)]⟩, ⟨60, [("m", 3)]⟩] 0).2.1
      (by decide) (by decide)).1⟩

/-- C6: the dimension mapper scans a metric's declared tiers in declared
order and selects the first tier whose inclusive range contains the quantity
(`List.find?` of the matching predicate); when no tier matches it fails with
`NoMatchingVolumeDimensionError` carrying that metric name and value; and
the whole mapping (`get_billing_dimensions`) fails atomically when any of
its metrics fails (an `Except.error` result carries no dimensions at all). -/
theorem c6_first_match_atomic_failure (metric : String) (usage : Nat)
    (tiers : List Tier) (config : Config) (bu : List (String × Nat))
    (p : String × Nat) :
    (get_volume_dimensions metric usage tiers =
      match tiers.find? (tier_matches usage) with
      | some t => Except.ok (t.dimension, usage)
      | none => Except.error ⟨metric, usage⟩) ∧
    (p ∈ bu →
      (∃ e, get_volume_dimensions p.1 p.2 (metric_tiers config p.1) = Except.error e) →
      ∃ e, get_billing_dimensions config bu = Except.error e) := by
  constructor
  · induction tiers with
    | nil => rfl
    | cons t rest ih =>
      simp only [get_volume_dimensions, List.find?]
      cases h : tier_matches usage t with
      | true => simp [h]
      | false => simpa [h] using ih
  · induction bu with
    | nil =>
      intro hp
      simp at hp
    | cons q rest ih =>
      intro hp hfail
      obtain ⟨m, u⟩ := q
      rcases List.mem_cons.mp hp with hq | hq
      · subst hq
        obtain ⟨e, he⟩ := hfail
        refine ⟨e, ?_⟩
        simp only [get_billing_dimensions, he]
      · rcases hvd : get_volume_dimensions m u (metric_tiers config m) with e | dim
        · exact ⟨e, by simp only [get_billing_dimensions, hvd]⟩
        · obtain ⟨e, he⟩ := ih hq hfail
          exact ⟨e, by simp only [get_billing_dimensions, hvd, he]⟩

/-- Witness for C6: a tier list where the second tier is the first match,
and a one-metric mapping that fails atomically. -/
theorem c6_first_match_atomic_failure_witness :
    get_volume_dimensions "nodes" 7
        [⟨"nodes_tier_1", 0, some 5⟩, ⟨"nodes_tier_2", 6, some 10⟩] =
      Except.ok ("nodes_tier_2", 7) ∧
    ∃ e, get_billing_dimensions
        { query_interval := 60
          reporting_interval := 300
          billing_interval := 3600
          usage_metrics :=
            [("managed_node_count",
              { usage_aggregate := Aggregate.average
                dimensions := [{ dimension := "base", minimum := 1, mx := some 500 }] })] }
        [("managed_node_count", 501)] = Except.error e := by
  constructor
  · rw [(c6_first_match_atomic_failure "nodes" 7
      [⟨"nodes_tier_1", 0, some 5⟩, ⟨"nodes_tier_2", 6, some 10⟩]
      { query_interval := 60, reporting_interval := 300, billing_interval := 3600,
        usage_metrics := [] } [] ("x", 0)).1]
    rfl
  · exact (c6_first_match_atomic_failure "x" 0 []
      { query_interval := 60
        reporting_interval := 300
        billing_interval := 3600
        usage_metrics :=
          [("managed_node_count",
            { usage_aggregate := Aggregate.average
              dimensions := [{ dimension := "base", minimum := 1, mx := some 500 }] })] }
      [("managed_node_count", 501)] ("managed_node_count", 501)).2
      (by decide) ⟨⟨"managed_node_count", 501⟩, rfl⟩

/-! ## Concrete fixtures (spec §8 end-to-end scenarios and
`test_process_metering`) -/

/-- A one-metric configuration with an unbounded base tier. -/
def example_config : Config :=
  { query_interval := 60
    reporting_interval := 300
    billing_interval := 3600
    usage_metrics :=
      [("managed_node_count",
        { usage_aggregate := Aggregate.average
          dimensions := [{ dimension := "base", minimum := 0, mx := none }] })] }

/-- Freshly created documents at `now = 0` under `example_config`. -/
def example_state : AdapterState :=
  { cache := create_cache 0 example_config
    csp_config := create_csp_config 0 example_config }

/-- The configuration of the mixed-records scenario. -/
def mixed_config : Config :=
  { query_interval := 60
    reporting_interval := 300
    billing_interval := 3600
    usage_metrics :=
      [("jobs",
        { usage_aggregate := Aggregate.average
          dimensions := [{ dimension := "jobs_tier_1", minimum := 0, mx := none }] })] }

/-- The mixed-records cache of `test_process_metering`: one record before
the closing billing period `[0, 3600)`, three inside it, one after it. -/
def mixed_state : AdapterState :=
  { cache :=
      { adapter_start_time := 0
        next_bill_time := 3600
        next_reporting_time := 300
        usage_records :=
          [⟨-3600, [("jobs", 44)]⟩, ⟨2700, [("jobs", 15)]⟩, ⟨3000, [("jobs", 23)]⟩,
            ⟨3300, [("jobs", 28)]⟩, ⟨7200, [("jobs", 63)]⟩]
        last_bill := none }
    csp_config := create_csp_config 0 mixed_config }

/-- C3: when the metering submission fails, `process_metering` leaves the
cache document entirely unchanged, sets `billing_api_access_ok` to false and
appends the error message to `errors`, leaving every other CSP-config field
as it was; being a total function, it raises nothing out of the pipeline. -/
theorem c3_submission_failure_frame (config : Config) (now : Int) (st : AdapterState)
    (msg : String) (empty_metering : Bool)
    (hdims : ∃ ds, get_billing_dimensions config
      (pm_billable_usage config st.cache empty_metering) = Except.ok ds) :
    (process_metering config now st (Except.error msg) empty_metering).cache = st.cache ∧
    (process_metering config now st (Except.error msg) empty_metering).csp_config =
      { st.csp_config with
        billing_api_access_ok := false
        errors := st.csp_config.errors ++ [msg] } := by
  obtain ⟨ds, hds⟩ := hdims
  constructor
  · simp [process_metering, hds]
  · simp [process_metering, hds, update_csp_config_failure]

/-- Witness for C3: a failed heartbeat submission on the fresh example
state. -/
theorem c3_submission_failure_frame_witness :
    (process_metering example_config 300 example_state
        (Except.error "meter_billing failed") true).cache = example_state.cache ∧
    (process_metering example_config 300 example_state
        (Except.error "meter_billing failed") true).csp_config =
      { example_state.csp_config with
        billing_api_access_ok := false
        errors := example_state.csp_config.errors ++ ["meter_billing failed"] } :=
  c3_submission_failure_frame example_config 300 example_state
    "meter_billing failed" true ⟨[("base", 0)], rfl⟩

/-- C4: a successful heartbeat (`empty_metering = true`) leaves
`usage_records`, `last_bill` and `next_bill_time` unchanged and advances
`next_reporting_time` to `now + reporting_interval`. -/
theorem c4_heartbeat_frame (config : Config) (now : Int) (st : AdapterState)
    (record_id : Nat)
    (hdims : ∃ ds, get_billing_dimensions config
      (pm_billable_usage config st.cache true) = Except.ok ds) :
    (process_metering config now st (Except.ok record_id) true).cache.usage_records =
      st.cache.usage_records ∧
    (process_metering config now st (Except.ok record_id) true).cache.last_bill =
      st.cache.last_bill ∧
    (process_metering config now st (Except.ok record_id) true).cache.next_bill_time =
      st.cache.next_bill_time ∧
    (process_metering config now st (Except.ok record_id) true).cache.next_reporting_time =
      now + config.reporting_interval := by
  obtain ⟨ds, hds⟩ := hdims
  refine ⟨?_, ?_, ?_, ?_⟩ <;> simp [process_metering, hds]

/-- Witness for C4: a successful heartbeat on the fresh example state. -/
theorem c4_heartbeat_frame_witness :
    (process_metering example_config 300 example_state (Except.ok 7) true).cache.usage_records =
      example_state.cache.usage_records ∧
    (process_metering example_config 300 example_state (Except.ok 7) true).cache.last_bill =
      example_state.cache.last_bill ∧
    (process_metering example_config 300 example_state (Except.ok 7) true).cache.next_bill_time =
      example_state.cache.next_bill_time ∧
    (process_metering example_config 300 example_state
        (Except.ok 7) true).cache.next_reporting_time =
      300 + example_config.reporting_interval :=
  c4_heartbeat_frame example_config 300 example_state 7 ⟨[("base", 0)], rfl⟩

/-- C2 counterexample: in the mixed-records state (previous
`next_bill_time = 3600`), a successful real bill leaves the record with
`reporting_time = -3600 < 3600` in `usage_records` — the record before the
closing billing period survives, refuting "no record with
`reporting_time < T` remains" (exactly what `test_process_metering` lines
459-480 assert). -/
theorem c2_counterexample :
    mixed_state.cache.next_bill_time = 3600 ∧
    ¬ (∀ r ∈ (process_metering mixed_config 3600 mixed_state
          (Except.ok 1) false).cache.usage_records,
        (3600 : Int) ≤ r.reporting_time) :=
  ⟨rfl, by decide⟩

/-- C2 (amended): after a successful real bill with previous
`next_bill_time = T`, `usage_records` is replaced by exactly the records
outside the closing billing period `[T - billing_interval, T)`: no record of
that period remains, and every record outside it — whether before its start
or at/after `T` — that was present before the bill is still present after. -/
theorem c2_real_bill_record_retention (config : Config) (now : Int) (st : AdapterState)
    (record_id : Nat)
    (hdims : ∃ ds, get_billing_dimensions config
      (pm_billable_usage config st.cache false) = Except.ok ds) :
    ((process_metering config now st (Except.ok record_id) false).cache.usage_records =
      st.cache.usage_records.filter (fun r => !(pm_in_period config st.cache r))) ∧
    (∀ r ∈ (process_metering config now st (Except.ok record_id) false).cache.usage_records,
      r.reporting_time < st.cache.next_bill_time - config.billing_interval ∨
        st.cache.next_bill_time ≤ r.reporting_time) ∧
    (∀ r ∈ st.cache.usage_records,
      (r.reporting_time < st.cache.next_bill_time - config.billing_interval ∨
        st.cache.next_bill_time ≤ r.reporting_time) →
      r ∈ (process_metering config now st (Except.ok record_id) false).cache.usage_records) := by
  obtain ⟨ds, hds⟩ := hdims
  have hrec : (process_metering config now st (Except.ok record_id) false).cache.usage_records =
      st.cache.usage_records.filter (fun r => !(pm_in_period config st.cache r)) := by
    simp [process_metering, hds]
  have hmem : ∀ r : UsageRecord, (!(pm_in_period config st.cache r)) = true ↔
      (r.reporting_time < st.cache.next_bill_time - config.billing_interval ∨
        st.cache.next_bill_time ≤ r.reporting_time) := by
    intro r
    simp only [pm_in_period, get_prev_bill_time, Bool.not_eq_true', Bool.and_eq_false_iff,
      decide_eq_false_iff_not, not_le, not_lt]
  refine ⟨hrec, ?_, ?_⟩
  · intro r hr
    rw [hrec] at hr
    exact (hmem r).mp (List.mem_filter.mp hr).2
  · intro r hr hout
    rw [hrec]
    exact List.mem_filter.mpr ⟨hr, (hmem r).mpr hout⟩

/-- Witness for the amended C2: the real bill on the mixed-records state
keeps exactly the two records outside the closing billing period. -/
theorem c2_real_bill_record_retention_witness :
    (process_metering mixed_config 3600 mixed_state (Except.ok 1) false).cache.usage_records =
      [⟨-3600, [("jobs", 44)]⟩, ⟨7200, [("jobs", 63)]⟩] :=
  ((c2_real_bill_record_retention mixed_config 3600 mixed_state 1
      ⟨[("jobs_tier_1", 22)], rfl⟩).1).trans (by decide)

/-- C1: on a tick whose sample succeeds, `event_loop_handler` decides from
the single time reading `now`: real bill when `now ≥ next_bill_time`, else
heartbeat when `now ≥ next_reporting_time`, else no metering; at most one
`process_metering` call happens, and `now` is returned; when no metering
runs, the only state change is the appended sample. -/
theorem c1_tick_mode_decision (config : Config) (input : TickInput) (st : AdapterState)
    (usage : UsageRecord) (hs : input.usage_result = Except.ok usage) :
    ∃ tr, event_loop_handler config input st = Except.ok tr ∧
      tr.result_now = input.now ∧
      tr.metering_calls =
        (if st.cache.next_bill_time ≤ input.now then [false]
         else if st.cache.next_reporting_time ≤ input.now then [true]
         else []) ∧
      tr.metering_calls.length ≤ 1 ∧
      (tr.metering_calls = [] →
        tr.state = { st with cache := add_usage_record st.cache usage }) := by
  have hnb : (add_usage_record st.cache usage).next_bill_time =
      st.cache.next_bill_time := rfl
  have hnr : (add_usage_record st.cache usage).next_reporting_time =
      st.cache.next_reporting_time := rfl
  simp only [event_loop_handler, hs, hnb, hnr, ge_iff_le]
  by_cases h1 : st.cache.next_bill_time ≤ input.now
  · rw [if_pos h1, if_pos h1]
    exact ⟨_, rfl, rfl, rfl, by simp, by intro h; simp at h⟩
  · rw [if_neg h1, if_neg h1]
    by_cases h2 : st.cache.next_reporting_time ≤ input.now
    · rw [if_pos h2, if_pos h2]
      exact ⟨_, rfl, rfl, rfl, by simp, by intro h; simp at h⟩
    · rw [if_neg h2, if_neg h2]
      exact ⟨_, rfl, rfl, rfl, by simp, fun _ => rfl⟩

/-- Witness for C1: an idle tick (now = 200, before both deadlines) on the
fresh example state. -/
theorem c1_tick_mode_decision_witness :
    ∃ tr, event_loop_handler example_config
        ⟨200, Except.ok ⟨200, [("managed_node_count", 3)]⟩, Except.ok 1⟩ example_state =
      Except.ok tr ∧
      tr.result_now = 200 ∧
      tr.metering_calls =
        (if example_state.cache.next_bill_time ≤ 200 then [false]
         else if example_state.cache.next_reporting_time ≤ 200 then [true]
         else []) ∧
      tr.metering_calls.length ≤ 1 ∧
      (tr.metering_calls = [] →
        tr.state = { example_state with
          cache := add_usage_record example_state.cache ⟨200, [("managed_node_count", 3)]⟩ }) :=
  c1_tick_mode_decision example_config
    ⟨200, Except.ok ⟨200, [("managed_node_count", 3)]⟩, Except.ok 1⟩ example_state
    ⟨200, [("managed_node_count", 3)]⟩ rfl

/-- A tick whose sampling call fails with a `CSPBillingAdapterException`. -/
def failing_tick : TickInput :=
  ⟨300, Except.error (AdapterException.adapter "usage sampling failed"), Except.ok 1⟩

/-- A later, healthy tick that would append a sample if it ever ran. -/
def healthy_tick : TickInput :=
  ⟨600, Except.ok ⟨600, [("managed_node_count", 3)]⟩, Except.ok 2⟩

/-- C5 counterexample: a sampling error on the first tick terminates the
run — `main`'s handler exits with code 2 and the healthy second tick never
runs (the state is exactly the pre-tick state: nothing was appended, no
metering happened) — refuting "the event loop continues to the next tick"
(adapter.py wraps the whole while-loop in one try/except whose handlers call
`sys.exit`). -/
theorem c5_counterexample :
    run_event_loop example_config example_state [failing_tick, healthy_tick] =
      RunOutcome.exited 2 example_state :=
  rfl

/-- C5 (amended): a sampling-backend error aborts the tick with no further
work (no append, no metering) and propagates out of `event_loop_handler`;
`main`'s top-level handler then terminates the process — exit code 2 when
the error is a `CSPBillingAdapterException`, 1 otherwise — so the error is
not retried on a next tick. -/
theorem c5_sample_error_terminates (config : Config) (e : AdapterException)
    (input : TickInput) (rest : List TickInput) (st : AdapterState)
    (hs : input.usage_result = Except.error e) :
    event_loop_handler config input st = Except.error e ∧
    run_event_loop config st (input :: rest) =
      RunOutcome.exited (exception_exit_code e) st ∧
    (∀ msg, e = AdapterException.adapter msg → exception_exit_code e = 2) ∧
    (∀ msg, e = AdapterException.unexpected msg → exception_exit_code e = 1) := by
  have h1 : event_loop_handler config input st = Except.error e := by
    simp [event_loop_handler, hs]
  refine ⟨h1, ?_, ?_, ?_⟩
  · simp [run_event_loop, h1]
  · intro msg h
    subst h
    rfl
  · intro msg h
    subst h
    rfl

/-- Witness for the amended C5: the failing tick ahead of a healthy one. -/
theorem c5_sample_error_terminates_witness :
    event_loop_handler example_config failing_tick example_state =
      Except.error (AdapterException.adapter "usage sampling failed") ∧
    run_event_loop example_config example_state [failing_tick, healthy_tick] =
      RunOutcome.exited
        (exception_exit_code (AdapterException.adapter "usage sampling failed"))
        example_state ∧
    (∀ msg, AdapterException.adapter "usage sampling failed" =
        AdapterException.adapter msg →
      exception_exit_code (AdapterException.adapter "usage sampling failed") = 2) ∧
    (∀ msg, AdapterException.adapter "usage sampling failed" =
        AdapterException.unexpected msg →
      exception_exit_code (AdapterException.adapter "usage sampling failed") = 1) :=
  c5_sample_error_terminates example_config
    (AdapterException.adapter "usage sampling failed") failing_tick [healthy_tick]
    example_state rfl

/-- The CSP config documents the adapter can ever hold: the created document
followed by any sequence of success/failure updates (spec §4.4; these are
the only mutations `process_metering` performs). -/
inductive CspConfigReachable (config : Config) : CspConfig → Prop where
  | created (now : Int) : CspConfigReachable config (create_csp_config now config)
  | success (now : Int) (c : CspConfig) (usage : Option (List (String × Nat)))
      (last_billed : Option Int) (h : CspConfigReachable config c) :
      CspConfigReachable config (update_csp_config_success now config c usage last_billed)
  | failure (c : CspConfig) (msg : String) (h : CspConfigReachable config c) :
      CspConfigReachable config (update_csp_config_failure c msg)

/-- C9: in every reachable CSP config document, `billing_api_access_ok =
true` implies `expire = timestamp + reporting_interval`; creation yields
`billing_api_access_ok = true` with empty errors (and the invariant);
and `process_metering` only moves the document between reachable states. -/
theorem c9_expire_invariant (config : Config) (c : CspConfig) (now : Int)
    (h : CspConfigReachable config c) :
    (c.billing_api_access_ok = true →
      c.expire = c.timestamp + config.reporting_interval) ∧
    (create_csp_config now config).billing_api_access_ok = true ∧
    (create_csp_config now config).errors = [] ∧
    (create_csp_config now config).expire =
      (create_csp_config now config).timestamp + config.reporting_interval ∧
    (∀ (st : AdapterState) (meter_result : Except String Nat) (em : Bool) (t : Int),
      CspConfigReachable config st.csp_config →
      CspConfigReachable config (process_metering config t st meter_result em).csp_config) := by
  refine ⟨?_, rfl, rfl, rfl, ?_⟩
  · induction h with
    | created n => exact fun _ => rfl
    | success n c u lb h ih => exact fun _ => rfl
    | failure c msg h ih =>
      intro hok
      simp [update_csp_config_failure] at hok
  · intro st meter_result em t hst
    simp only [process_metering]
    split
    · exact CspConfigReachable.failure _ _ hst
    · split
      · exact CspConfigReachable.failure _ _ hst
      · split
        · exact CspConfigReachable.success _ _ _ _ hst
        · exact CspConfigReachable.success _ _ _ _ hst

/-- Witness for C9 at the freshly created example document. -/
theorem c9_expire_invariant_witness :
    ((create_csp_config 0 example_config).billing_api_access_ok = true →
      (create_csp_config 0 example_config).expire =
        (create_csp_config 0 example_config).timestamp +
          example_config.reporting_interval) ∧
    (create_csp_config 0 example_config).billing_api_access_ok = true ∧
    (create_csp_config 0 example_config).errors = [] ∧
    (create_csp_config 0 example_config).expire =
      (create_csp_config 0 example_config).timestamp +
        example_config.reporting_interval ∧
    (∀ (st : AdapterState) (meter_result : Except String Nat) (em : Bool) (t : Int),
      CspConfigReachable example_config st.csp_config →
      CspConfigReachable example_config
        (process_metering example_config t st meter_result em).csp_config) :=
  c9_expire_invariant example_config (create_csp_config 0 example_config) 0
    (CspConfigReachable.created 0)

end CspBillingAdapter
